import Mathlib

/-!
# VIREM Vault ("Ghost Vault") — formal model and verification

Shallow embedding of `src/virem_vault/driver.py` (class `VIREMVaultDriver`):
a per-record encrypted file store whose encryption key is derived on the fly
from a caller-supplied wake phrase.

Library primitives used by the driver (`hashlib.sha256`,
`base64.urlsafe_b64encode`, UTF-8 encoding) are embedded concretely,
bit-for-bit.  The `cryptography.fernet` authenticated-encryption scheme and
the `json` serializer are embedded symbolically (perfect-cryptography style):
a Fernet token is modelled as the pair of the key it was produced under and
the plaintext it protects, and decryption succeeds exactly when the supplied
key equals the token's key; a JSON byte string is modelled as either the
canonical serialization of a JSON value or an arbitrary non-JSON string.
The filesystem is modelled as an association list from paths to file
contents, plus an event-trace semantics for observing intermediate states of
a `store_memory` call.
-/

/-! ## Bytes and 32-bit words -/

/-- Truncate to a 32-bit word (Python ints are unbounded; SHA-256 arithmetic
is mod 2^32). -/
def w32 (x : Nat) : Nat := x % 4294967296

/-- 32-bit right rotation, as used by SHA-256. -/
def rotr32 (n x : Nat) : Nat := w32 ((x >>> n) ||| (x <<< (32 - n)))

/-- 32-bit bitwise complement. -/
def not32 (x : Nat) : Nat := x ^^^ 4294967295

/-- Big-endian byte serialization of `x` into `n` bytes. -/
def toBytesBE : Nat → Nat → List Nat
  | 0, _ => []
  | n + 1, x => toBytesBE n (x / 256) ++ [x % 256]

/-! ## SHA-256 (`hashlib.sha256`), FIPS 180-4 -/

/-- The 64 SHA-256 round constants (in decimal). -/
def shaK : List Nat :=
  [1116352408, 1899447441, 3049323471, 3921009573, 961987163, 1508970993,
   2453635748, 2870763221, 3624381080, 310598401, 607225278, 1426881987,
   1925078388, 2162078206, 2614888103, 3248222580, 3835390401, 4022224774,
   264347078, 604807628, 770255983, 1249150122, 1555081692, 1996064986,
   2554220882, 2821834349, 2952996808, 3210313671, 3336571891, 3584528711,
   113926993, 338241895, 666307205, 773529912, 1294757372, 1396182291,
   1695183700, 1986661051, 2177026350, 2456956037, 2730485921, 2820302411,
   3259730800, 3345764771, 3516065817, 3600352804, 4094571909, 275423344,
   430227734, 506948616, 659060556, 883997877, 958139571, 1322822218,
   1537002063, 1747873779, 1955562222, 2024104815, 2227730452, 2361852424,
   2428436474, 2756734187, 3204031479, 3329325298]

/-- The SHA-256 initial hash value (in decimal). -/
def shaH0 : List Nat :=
  [1779033703, 3144134277, 1013904242, 2773480762,
   1359893119, 2600822924, 528734635, 1541459225]

/-- SHA-256 message padding: append `0x80`, zero bytes, and the 64-bit
big-endian bit length, reaching a multiple of 64 bytes. -/
def padMessage (msg : List Nat) : List Nat :=
  let L := msg.length
  let k := (119 - L % 64) % 64
  msg ++ [0x80] ++ List.replicate k 0 ++ toBytesBE 8 (L * 8)

/-- Group a byte list into big-endian 32-bit words. -/
def bytesToWords : List Nat → List Nat
  | a :: b :: c :: d :: rest => (((a * 256 + b) * 256 + c) * 256 + d) :: bytesToWords rest
  | _ => []

/-- One step of the SHA-256 message-schedule extension. -/
def scheduleStep (ws : List Nat) : List Nat :=
  let i := ws.length
  let s0 :=
    let x := ws.getD (i - 15) 0
    rotr32 7 x ^^^ rotr32 18 x ^^^ (x >>> 3)
  let s1 :=
    let x := ws.getD (i - 2) 0
    rotr32 17 x ^^^ rotr32 19 x ^^^ (x >>> 10)
  ws ++ [w32 (ws.getD (i - 16) 0 + s0 + ws.getD (i - 7) 0 + s1)]

/-- Extend a 16-word schedule by `n` further words. -/
def extendSchedule : List Nat → Nat → List Nat
  | ws, 0 => ws
  | ws, n + 1 => extendSchedule (scheduleStep ws) n

/-- One SHA-256 compression round on state `[a,b,c,d,e,f,g,h]`. -/
def compressRound (st : List Nat) (kw : Nat × Nat) : List Nat :=
  match st with
  | [a, b, c, d, e, f, g, h] =>
    let S1 := rotr32 6 e ^^^ rotr32 11 e ^^^ rotr32 25 e
    let ch := (e &&& f) ^^^ (not32 e &&& g)
    let temp1 := w32 (h + S1 + ch + kw.1 + kw.2)
    let S0 := rotr32 2 a ^^^ rotr32 13 a ^^^ rotr32 22 a
    let maj := (a &&& b) ^^^ (a &&& c) ^^^ (b &&& c)
    let temp2 := w32 (S0 + maj)
    [w32 (temp1 + temp2), a, b, c, w32 (d + temp1), e, f, g]
  | _ => st

/-- Process one 64-byte chunk, updating the running hash. -/
def processChunk (H : List Nat) (chunk : List Nat) : List Nat :=
  let ws := extendSchedule (bytesToWords chunk) 48
  let st := (shaK.zip ws).foldl compressRound H
  H.zipWith (fun x y => w32 (x + y)) st

/-- Split a byte list into successive 64-byte chunks (fuel-based so that it
reduces definitionally). -/
def chunks64Fuel : Nat → List Nat → List (List Nat)
  | 0, _ => []
  | _, [] => []
  | fuel + 1, x :: xs => ((x :: xs).take 64) :: chunks64Fuel fuel ((x :: xs).drop 64)

/-- Split a byte list into successive 64-byte chunks. -/
def chunks64 (l : List Nat) : List (List Nat) := chunks64Fuel l.length l

/-- `hashlib.sha256(msg).digest()`: the 32-byte SHA-256 digest. -/
def sha256 (msg : List Nat) : List Nat :=
  ((chunks64 (padMessage msg)).foldl processChunk shaH0).foldr
    (fun w acc => toBytesBE 4 w ++ acc) []

/-- Lowercase hex digit. -/
def hexChar (n : Nat) : Char := "0123456789abcdef".toList.getD n '0'

/-- `.hexdigest()`: lowercase hex encoding of a byte list. -/
def bytesToHex (bytes : List Nat) : String :=
  String.mk (bytes.foldr (fun b acc => hexChar (b / 16) :: hexChar (b % 16) :: acc) [])

/-! ## URL-safe base64 (`base64.urlsafe_b64encode`) -/

/-- The URL-safe base64 alphabet. -/
def b64Alphabet : String := "ABCDEFGHIJKLMNOPQRSTUVWXYZabcdefghijklmnopqrstuvwxyz0123456789-_"

/-- The character encoding a 6-bit value. -/
def b64Char (n : Nat) : Char := b64Alphabet.toList.getD n 'A'

/-- URL-safe base64 encoding of a byte list, with `=` padding. -/
def urlsafeB64 : List Nat → List Char
  | a :: b :: c :: rest =>
    b64Char (a / 4) :: b64Char (a % 4 * 16 + b / 16) :: b64Char (b % 16 * 4 + c / 64) ::
      b64Char (c % 64) :: urlsafeB64 rest
  | [a, b] => [b64Char (a / 4), b64Char (a % 4 * 16 + b / 16), b64Char (b % 16 * 4), '=']
  | [a] => [b64Char (a / 4), b64Char (a % 4 * 16), '=', '=']
  | [] => []

/-- Value of a base64 character (64 when not in the alphabet). -/
def b64Val (c : Char) : Nat := (b64Alphabet.toList.indexOf c)

/-- Base64 decoding, inverse of `urlsafeB64` on byte lists. -/
def b64Decode : List Char → List Nat
  | c1 :: c2 :: c3 :: c4 :: rest =>
    if c4 = '=' then
      if c3 = '=' then [b64Val c1 * 4 + b64Val c2 / 16]
      else [b64Val c1 * 4 + b64Val c2 / 16, b64Val c2 % 16 * 16 + b64Val c3 / 4]
    else
      (b64Val c1 * 4 + b64Val c2 / 16) :: (b64Val c2 % 16 * 16 + b64Val c3 / 4) ::
        (b64Val c3 % 4 * 64 + b64Val c4) :: b64Decode rest
  | _ => []

/-! ## UTF-8 encoding (`str.encode('utf-8')`) -/

/-- UTF-8 encoding of a single Unicode code point. -/
def utf8Char (c : Char) : List Nat :=
  let n := c.toNat
  if n < 128 then [n]
  else if n < 2048 then [192 + n / 64, 128 + n % 64]
  else if n < 65536 then [224 + n / 4096, 128 + n / 64 % 64, 128 + n % 64]
  else [240 + n / 262144, 128 + n / 4096 % 64, 128 + n / 64 % 64, 128 + n % 64]

/-- UTF-8 encoding of a string as a byte list. -/
def utf8Encode (s : String) : List Nat := (s.data.map utf8Char).flatten

/-! ## JSON values and the symbolic `json` module

`json.dumps` / `json.loads` are modelled symbolically: a payload is a JSON
value; a plaintext byte string is either the canonical serialization of a
JSON value (which `json.loads` parses back to that value) or some other
string on which `json.loads` raises `JSONDecodeError`.  Nothing in the
driver inspects the serialized text itself. -/

/-- A JSON-serializable value (`dict`/`list`/`str`/`int`/`bool`/`None`). -/
inductive Json where
  | null
  | bool (b : Bool)
  | num (n : Int)
  | str (s : String)
  | arr (xs : List Json)
  | obj (kvs : List (String × Json))

/-- A plaintext byte string: either the canonical JSON serialization of a
value, or bytes that are not valid JSON. -/
inductive Plaintext where
  | valid (j : Json)
  | invalid (raw : String)

/-- `json.dumps`: serializing a JSON value yields its canonical
serialization. -/
def json_dumps (j : Json) : Plaintext := Plaintext.valid j

/-- `json.loads`: parsing recovers the value from a canonical serialization
and raises (`none`) on anything else. -/
def json_loads : Plaintext → Option Json
  | Plaintext.valid j => some j
  | Plaintext.invalid _ => none

/-! ## Symbolic Fernet and the on-disk file model

A Fernet token (`fernet.encrypt(pt)`) is modelled as the pair of the key
and the plaintext; `fernet.decrypt` with key `k` succeeds on `enc key pt`
exactly when `k = key` and raises `InvalidToken` otherwise, and raises
`InvalidToken` on any byte string that is not a Fernet token (`raw`). -/

/-- Contents of a file in the vault directory: a Fernet token produced
under `key`, or raw (non-token) bytes. -/
inductive VFile where
  | enc (key : String) (pt : Plaintext)
  | raw (pt : Plaintext)

/-- The filesystem: an association list from paths to file contents
(later bindings shadow earlier ones). -/
def FS := List (String × VFile)

/-- Look up the contents of the file at path `p`, if it exists. -/
def FS.lookup : FS → String → Option VFile
  | [], _ => none
  | (q, f) :: rest, p => if p = q then some f else FS.lookup rest p

/-- Create or overwrite the file at path `p` with contents `f`. -/
def FS.insert (fs : FS) (p : String) (f : VFile) : FS := (p, f) :: fs

/-- Remove the file at path `p` (`os.remove`). -/
def FS.erase : FS → String → FS
  | [], _ => []
  | (q, f) :: rest, p => if p = q then FS.erase rest p else (q, f) :: FS.erase rest p

/-! ## The driver (`VIREMVaultDriver`) -/

/-- `KEY_DERIVATION_SALT = b'presence_ai_ghost_vault_salt'`. -/
def KEY_DERIVATION_SALT : List Nat := utf8Encode "presence_ai_ghost_vault_salt"

/-- The configuration state of a `VIREMVaultDriver` instance, as read from
`config.json` in `__init__` (`vault.location`, `vault.encryption_enabled`). -/
structure VIREMVaultDriver where
  vault_location : String
  encryption_enabled : Bool

/-- `_derive_key_from_phrase`: SHA-256 of the UTF-8 phrase concatenated with
the fixed salt, URL-safe base64-encoded, giving the Fernet key.  Raises
`ValueError` (`none`) when the phrase is empty.  (The non-string case of the
Python guard is outside the typed model.) -/
def derive_key_from_phrase (phrase : String) : Option String :=
  if phrase = "" then none
  else some (String.mk (urlsafeB64 (sha256 (utf8Encode phrase ++ KEY_DERIVATION_SALT))))

/-- `_get_memory_filepath`: `os.path.join(vault_location, sha256(memory_id).hexdigest() + ".ghost")`. -/
def get_memory_filepath (v : VIREMVaultDriver) (memory_id : String) : String :=
  v.vault_location ++ "/" ++ bytesToHex (sha256 (utf8Encode memory_id)) ++ ".ghost"

/-- `store_memory`: serialize, derive the key from the wake phrase, write
the (en- or unencrypted) bytes to the record's path.  Returns the success
flag and the updated filesystem.  A `ValueError` from key derivation is
caught and turned into `False` with nothing written. -/
def store_memory (v : VIREMVaultDriver) (fs : FS) (memory_id : String)
    (data : Json) (wake_phrase : String) : Bool × FS :=
  let filepath := get_memory_filepath v memory_id
  match derive_key_from_phrase wake_phrase with
  | none => (false, fs)
  | some key =>
    let json_data := json_dumps data
    if v.encryption_enabled then
      (true, fs.insert filepath (VFile.enc key json_data))
    else
      (true, fs.insert filepath (VFile.raw json_data))

/-- The internal outcome of a `retrieve_memory` call: which return path /
exception handler of the Python code it went through.  `valueErrorCaught`
covers the `except ValueError` handler, which catches both the invalid
wake phrase raised by `_derive_key_from_phrase` and `json.JSONDecodeError`
(a `ValueError` subclass) from `json.loads`; `otherErrorCaught` is the
final `except Exception` handler (which deletes the file). -/
inductive RetrieveOutcome where
  | success (j : Json)
  | notFound
  | invalidTokenCaught
  | valueErrorCaught
  | otherErrorCaught

/-- `retrieve_memory`, instrumented with the internal outcome: check the
file exists, derive the key, decrypt (encrypted mode) or read directly
(plaintext mode), parse JSON.  Returns the outcome and the resulting
filesystem.  Note that `json.JSONDecodeError` subclasses `ValueError`, so a
JSON parse failure is caught by the `except ValueError` handler and never
reaches the file-deleting `except Exception` handler. -/
def retrieve_memory_full (v : VIREMVaultDriver) (fs : FS) (memory_id : String)
    (wake_phrase : String) : RetrieveOutcome × FS :=
  let filepath := get_memory_filepath v memory_id
  match fs.lookup filepath with
  | none => (RetrieveOutcome.notFound, fs)
  | some file =>
    match derive_key_from_phrase wake_phrase with
    | none => (RetrieveOutcome.valueErrorCaught, fs)
    | some key =>
      if v.encryption_enabled then
        match file with
        | VFile.enc k pt =>
          if key = k then
            match json_loads pt with
            | some j => (RetrieveOutcome.success j, fs)
            | none => (RetrieveOutcome.valueErrorCaught, fs)
          else (RetrieveOutcome.invalidTokenCaught, fs)
        | VFile.raw _ => (RetrieveOutcome.invalidTokenCaught, fs)
      else
        match file with
        | VFile.raw pt =>
          match json_loads pt with
          | some j => (RetrieveOutcome.success j, fs)
          | none => (RetrieveOutcome.valueErrorCaught, fs)
        | VFile.enc _ _ => (RetrieveOutcome.valueErrorCaught, fs)

/-- The value `retrieve_memory` returns to its caller: the payload on
success and `None` on every failure path. -/
def RetrieveOutcome.toReturn : RetrieveOutcome → Option Json
  | RetrieveOutcome.success j => some j
  | _ => none

/-- `retrieve_memory` as the caller sees it: `dict | None`, plus the
resulting filesystem. -/
def retrieve_memory (v : VIREMVaultDriver) (fs : FS) (memory_id : String)
    (wake_phrase : String) : Option Json × FS :=
  let r := retrieve_memory_full v fs memory_id wake_phrase
  (r.1.toReturn, r.2)

/-- `delete_memory`: remove the record's file if present. -/
def delete_memory (v : VIREMVaultDriver) (fs : FS) (memory_id : String) : Bool × FS :=
  let filepath := get_memory_filepath v memory_id
  match fs.lookup filepath with
  | none => (false, fs)
  | some _ => (true, fs.erase filepath)

/-! ## Filesystem event traces

`store_memory` performs its write with `with open(filepath, 'wb'/'w') as f:
f.write(...)`: an open with truncation at the final path, a write, a close.
To reason about what a concurrent reader can observe, the filesystem calls
a driver operation makes are modelled as an event trace, and observable
states as the prefix-states of that trace. -/

/-- A filesystem call made by the driver: truncating open (`open(p, 'w')` /
`open(p, 'wb')`), a write of the full contents, a close, or a rename. -/
inductive FsEvent where
  | openTrunc (path : String)
  | writeAll (path : String) (content : VFile)
  | closeFile (path : String)
  | rename (src dst : String)

/-- Whether an event is a rename. -/
def FsEvent.isRename : FsEvent → Bool
  | FsEvent.rename _ _ => true
  | _ => false

/-- The empty file produced by a truncating open before anything is
written: zero bytes, which are neither a Fernet token nor valid JSON. -/
def emptyFile : VFile := VFile.raw (Plaintext.invalid "")

/-- Effect of one filesystem event on the filesystem state. -/
def applyEvent (fs : FS) : FsEvent → FS
  | FsEvent.openTrunc p => fs.insert p emptyFile
  | FsEvent.writeAll p c => fs.insert p c
  | FsEvent.closeFile _ => fs
  | FsEvent.rename src dst =>
    match fs.lookup src with
    | some f => FS.insert (fs.erase src) dst f
    | none => fs

/-- All states a concurrent reader can observe while a trace runs from
`fs`: the state before each event and the final state. -/
def observableStates (fs : FS) : List FsEvent → List FS
  | [] => [fs]
  | e :: rest => fs :: observableStates (applyEvent fs e) rest

/-- The filesystem event trace of a `store_memory` call, from the source:
key derivation first (writing nothing on `ValueError`), then
`open(filepath, 'wb')` (or `'w'`), one write of the full contents, close.
No temporary file and no rename. -/
def store_memory_events (v : VIREMVaultDriver) (memory_id : String)
    (data : Json) (wake_phrase : String) : List FsEvent :=
  let filepath := get_memory_filepath v memory_id
  match derive_key_from_phrase wake_phrase with
  | none => []
  | some key =>
    let json_data := json_dumps data
    if v.encryption_enabled then
      [FsEvent.openTrunc filepath, FsEvent.writeAll filepath (VFile.enc key json_data),
       FsEvent.closeFile filepath]
    else
      [FsEvent.openTrunc filepath, FsEvent.writeAll filepath (VFile.raw json_data),
       FsEvent.closeFile filepath]

/-! ## Supporting lemmas -/

/-- Looking up a path just inserted returns the inserted contents. -/
theorem FS.lookup_insert_self (fs : FS) (p : String) (f : VFile) :
    (fs.insert p f).lookup p = some f := by
  simp [FS.insert, FS.lookup]

/-- Inserting at one path leaves lookups at other paths unchanged. -/
theorem FS.lookup_insert_ne (fs : FS) (p q : String) (f : VFile) (h : q ≠ p) :
    (fs.insert p f).lookup q = fs.lookup q := by
  simp [FS.insert, FS.lookup, h]

/-- Decoding a base64 character of a 6-bit value recovers the value. -/
theorem b64Val_b64Char : ∀ n < 64, b64Val (b64Char n) = n := by decide

/-- No alphabet character is the padding character. -/
theorem b64Char_ne_pad : ∀ n < 64, b64Char n ≠ '=' := by decide

/-- `b64Decode` inverts `urlsafeB64` on byte lists. -/
theorem b64Decode_urlsafeB64 : ∀ l : List Nat, (∀ x ∈ l, x < 256) → b64Decode (urlsafeB64 l) = l
  | [], _ => rfl
  | [a], h => by
    have ha : a < 256 := h a (by simp)
    simp only [urlsafeB64, b64Decode, eq_self_iff_true, if_true]
    rw [b64Val_b64Char (a / 4) (by omega), b64Val_b64Char (a % 4 * 16) (by omega)]
    have e : a / 4 * 4 + a % 4 * 16 / 16 = a := by omega
    rw [e]
  | [a, b], h => by
    have ha : a < 256 := h a (by simp)
    have hb : b < 256 := h b (by simp)
    simp only [urlsafeB64, b64Decode, eq_self_iff_true, if_true,
      if_neg (b64Char_ne_pad (b % 16 * 4) (by omega))]
    rw [b64Val_b64Char (a / 4) (by omega), b64Val_b64Char (a % 4 * 16 + b / 16) (by omega),
      b64Val_b64Char (b % 16 * 4) (by omega)]
    have e1 : a / 4 * 4 + (a % 4 * 16 + b / 16) / 16 = a := by omega
    have e2 : (a % 4 * 16 + b / 16) % 16 * 16 + b % 16 * 4 / 4 = b := by omega
    rw [e1, e2]
  | a :: b :: c :: rest, h => by
    have ha : a < 256 := h a (by simp)
    have hb : b < 256 := h b (by simp)
    have hc : c < 256 := h c (by simp)
    have hrest : ∀ x ∈ rest, x < 256 := fun x hx => h x (by simp [hx])
    simp only [urlsafeB64, b64Decode, if_neg (b64Char_ne_pad (c % 64) (by omega))]
    rw [b64Val_b64Char (a / 4) (by omega), b64Val_b64Char (a % 4 * 16 + b / 16) (by omega),
      b64Val_b64Char (b % 16 * 4 + c / 64) (by omega), b64Val_b64Char (c % 64) (by omega),
      b64Decode_urlsafeB64 rest hrest]
    have e1 : a / 4 * 4 + (a % 4 * 16 + b / 16) / 16 = a := by omega
    have e2 : (a % 4 * 16 + b / 16) % 16 * 16 + (b % 16 * 4 + c / 64) / 4 = b := by omega
    have e3 : (b % 16 * 4 + c / 64) % 4 * 64 + c % 64 = c := by omega
    rw [e1, e2, e3]

/-- `urlsafeB64` is injective on byte lists. -/
theorem urlsafeB64_injOn (l1 l2 : List Nat) (h1 : ∀ x ∈ l1, x < 256)
    (h2 : ∀ x ∈ l2, x < 256) (h : urlsafeB64 l1 = urlsafeB64 l2) : l1 = l2 := by
  rw [← b64Decode_urlsafeB64 l1 h1, ← b64Decode_urlsafeB64 l2 h2, h]

/-- `toBytesBE` produces bytes. -/
theorem toBytesBE_lt : ∀ (n x : Nat), ∀ y ∈ toBytesBE n x, y < 256 := by
  intro n
  induction n with
  | zero => intro x y hy; simp [toBytesBE] at hy
  | succ m ih =>
    intro x y hy
    simp only [toBytesBE, List.mem_append, List.mem_singleton] at hy
    rcases hy with hy | hy
    · exact ih (x / 256) y hy
    · omega

/-- A SHA-256 digest consists of bytes. -/
theorem sha256_bytes_lt (msg : List Nat) : ∀ y ∈ sha256 msg, y < 256 := by
  unfold sha256
  generalize (chunks64 (padMessage msg)).foldl processChunk shaH0 = H
  induction H with
  | nil => simp
  | cons w ws ih =>
    intro y hy
    simp only [List.foldr_cons, List.mem_append] at hy
    rcases hy with hy | hy
    · exact toBytesBE_lt 4 w y hy
    · exact ih y hy

/-- Distinct salted digests yield distinct derived Fernet keys. -/
theorem derive_key_ne_of_digest_ne (p1 p2 : String)
    (hd : sha256 (utf8Encode p1 ++ KEY_DERIVATION_SALT)
        ≠ sha256 (utf8Encode p2 ++ KEY_DERIVATION_SALT)) :
    derive_key_from_phrase p1 ≠ derive_key_from_phrase p2 := by
  by_cases e1 : p1 = ""
  · by_cases e2 : p2 = ""
    · subst e1; subst e2; exact absurd rfl hd
    · subst e1
      simp [derive_key_from_phrase, e2]
  · by_cases e2 : p2 = ""
    · subst e2
      simp [derive_key_from_phrase, e1]
    · simp only [derive_key_from_phrase, if_neg e1, if_neg e2, ne_eq, Option.some.injEq]
      intro hmk
      exact hd (urlsafeB64_injOn _ _ (sha256_bytes_lt _) (sha256_bytes_lt _)
        (by injection hmk))

/-- Unfolded form of key derivation for a non-empty phrase. -/
theorem derive_key_of_ne (phrase : String) (h : phrase ≠ "") :
    derive_key_from_phrase phrase
      = some (String.mk (urlsafeB64 (sha256 (utf8Encode phrase ++ KEY_DERIVATION_SALT)))) := by
  simp [derive_key_from_phrase, h]

/-! ## Claims -/

/-- A vault instance with encryption enabled (the default configuration). -/
def vaultT : VIREMVaultDriver := { vault_location := "vault_data", encryption_enabled := true }

/-- A vault instance with encryption disabled. -/
def vaultF : VIREMVaultDriver := { vault_location := "vault_data", encryption_enabled := false }

/-- C1: for every non-empty wake phrase, every memory_id, and every
JSON-serializable payload, `retrieve_memory(memory_id, phrase)` immediately
after a successful `store_memory(memory_id, payload, phrase)` returns a
payload equal to the one stored (in either encryption mode). -/
theorem C1_round_trip (v : VIREMVaultDriver) (fs : FS) (memory_id : String)
    (payload : Json) (phrase : String) (h : phrase ≠ "") :
    (store_memory v fs memory_id payload phrase).1 = true
    ∧ (retrieve_memory v (store_memory v fs memory_id payload phrase).2 memory_id phrase).1
      = some payload := by
  have hd := derive_key_of_ne phrase h
  cases henc : v.encryption_enabled with
  | true =>
    simp [store_memory, retrieve_memory, retrieve_memory_full, hd, henc,
      FS.lookup_insert_self, json_dumps, json_loads, RetrieveOutcome.toReturn]
  | false =>
    simp [store_memory, retrieve_memory, retrieve_memory_full, hd, henc,
      FS.lookup_insert_self, json_dumps, json_loads, RetrieveOutcome.toReturn]

/-- Witness for C1 at a concrete input. -/
theorem C1_round_trip_witness :
    ("remember the sunflower" ≠ "")
    ∧ ((store_memory vaultT [] "user_interaction_ghost_123" (Json.str "secret")
          "remember the sunflower").1 = true
      ∧ (retrieve_memory vaultT
            (store_memory vaultT [] "user_interaction_ghost_123" (Json.str "secret")
              "remember the sunflower").2
            "user_interaction_ghost_123" "remember the sunflower").1 = some (Json.str "secret")) :=
  ⟨by decide,
   C1_round_trip vaultT [] "user_interaction_ghost_123" (Json.str "secret")
     "remember the sunflower" (by decide)⟩

/-- C9: `store_memory` with an empty wake phrase fails (returns `False`
rather than raising), writes nothing, and performs no filesystem event, in
both encryption modes — the `ValueError` from `_derive_key_from_phrase` is
raised before any file is opened.  (The non-string case is outside the
typed model.) -/
theorem C9_store_empty_phrase_fails (v : VIREMVaultDriver) (fs : FS)
    (memory_id : String) (payload : Json) :
    store_memory v fs memory_id payload "" = (false, fs)
    ∧ store_memory_events v memory_id payload "" = [] := by
  constructor
  · simp [store_memory, derive_key_from_phrase]
  · simp [store_memory_events, derive_key_from_phrase]

/-- C2: retrieving a stored record with a different wake phrase (whose
derived key differs — true of any distinct phrase pair barring a SHA-256
collision) fails closed in encrypted mode: the call takes the
`InvalidToken` path, returns `None` to the caller (never the payload, nor
any partial plaintext — the model's decryption is all-or-nothing), raises
no unhandled fault (the model is a total function), and leaves the
filesystem unchanged. -/
theorem C2_wrong_phrase_fails_closed (v : VIREMVaultDriver) (fs : FS)
    (memory_id : String) (payload : Json) (p w : String)
    (hv : v.encryption_enabled = true) (hp : p ≠ "") (hw : w ≠ "") (hne : w ≠ p)
    (hkey : derive_key_from_phrase w ≠ derive_key_from_phrase p) :
    retrieve_memory_full v (store_memory v fs memory_id payload p).2 memory_id w
      = (RetrieveOutcome.invalidTokenCaught, (store_memory v fs memory_id payload p).2)
    ∧ retrieve_memory v (store_memory v fs memory_id payload p).2 memory_id w
      = (none, (store_memory v fs memory_id payload p).2) := by
  have hdp := derive_key_of_ne p hp
  have hdw := derive_key_of_ne w hw
  have hk : String.mk (urlsafeB64 (sha256 (utf8Encode w ++ KEY_DERIVATION_SALT)))
      ≠ String.mk (urlsafeB64 (sha256 (utf8Encode p ++ KEY_DERIVATION_SALT))) := by
    intro e
    exact hkey (by rw [hdp, hdw, e])
  simp [store_memory, retrieve_memory, retrieve_memory_full, hdp, hdw, hv,
    FS.lookup_insert_self, json_dumps, RetrieveOutcome.toReturn, hk]

/-- Witness for C2 at a concrete input. -/
theorem C2_wrong_phrase_fails_closed_witness :
    (vaultT.encryption_enabled = true ∧ "remember the sunflower" ≠ ""
      ∧ "forget the moon" ≠ "" ∧ "forget the moon" ≠ "remember the sunflower"
      ∧ derive_key_from_phrase "forget the moon"
          ≠ derive_key_from_phrase "remember the sunflower")
    ∧ (retrieve_memory_full vaultT
        (store_memory vaultT [] "m1" (Json.str "secret") "remember the sunflower").2
        "m1" "forget the moon"
      = (RetrieveOutcome.invalidTokenCaught,
         (store_memory vaultT [] "m1" (Json.str "secret") "remember the sunflower").2)
      ∧ retrieve_memory vaultT
          (store_memory vaultT [] "m1" (Json.str "secret") "remember the sunflower").2
          "m1" "forget the moon"
        = (none,
           (store_memory vaultT [] "m1" (Json.str "secret") "remember the sunflower").2)) :=
  ⟨⟨rfl, by decide, by decide, by decide, by decide⟩,
   C2_wrong_phrase_fails_closed vaultT [] "m1" (Json.str "secret")
     "remember the sunflower" "forget the moon" rfl (by decide) (by decide) (by decide)
     (by decide)⟩

/-- C4: a retrieve that fails because the wake phrase is wrong is handled
by the `except InvalidToken` branch, which performs no cleanup: the
filesystem after the failed call is exactly the one before it, and a
subsequent retrieve with the correct phrase still returns the stored
payload. -/
theorem C4_wrong_phrase_keeps_file (v : VIREMVaultDriver) (fs : FS)
    (memory_id : String) (payload : Json) (p w : String)
    (hv : v.encryption_enabled = true) (hp : p ≠ "") (hw : w ≠ "")
    (hkey : derive_key_from_phrase w ≠ derive_key_from_phrase p) :
    retrieve_memory v (store_memory v fs memory_id payload p).2 memory_id w
      = (none, (store_memory v fs memory_id payload p).2)
    ∧ (retrieve_memory v
        (retrieve_memory v (store_memory v fs memory_id payload p).2 memory_id w).2
        memory_id p).1 = some payload := by
  have hdp := derive_key_of_ne p hp
  have hdw := derive_key_of_ne w hw
  have hk : String.mk (urlsafeB64 (sha256 (utf8Encode w ++ KEY_DERIVATION_SALT)))
      ≠ String.mk (urlsafeB64 (sha256 (utf8Encode p ++ KEY_DERIVATION_SALT))) := by
    intro e
    exact hkey (by rw [hdp, hdw, e])
  simp [store_memory, retrieve_memory, retrieve_memory_full, hdp, hdw, hv,
    FS.lookup_insert_self, json_dumps, json_loads, RetrieveOutcome.toReturn, hk]

/-- Witness for C4 at a concrete input. -/
theorem C4_wrong_phrase_keeps_file_witness :
    (vaultT.encryption_enabled = true ∧ "pa" ≠ "" ∧ "wb" ≠ ""
      ∧ derive_key_from_phrase "wb" ≠ derive_key_from_phrase "pa")
    ∧ (retrieve_memory vaultT (store_memory vaultT [] "m2" Json.null "pa").2 "m2" "wb"
        = (none, (store_memory vaultT [] "m2" Json.null "pa").2)
      ∧ (retrieve_memory vaultT
          (retrieve_memory vaultT (store_memory vaultT [] "m2" Json.null "pa").2 "m2" "wb").2
          "m2" "pa").1 = some Json.null) :=
  ⟨⟨rfl, by decide, by decide, by decide⟩,
   C4_wrong_phrase_keeps_file vaultT [] "m2" Json.null "pa" "wb" rfl (by decide)
     (by decide) (by decide)⟩

/-- C8: the storage path is a function of the memory id alone
(`_get_memory_filepath` takes no phrase), so a second store to the same id
overwrites the record: afterwards, retrieving with the second phrase
returns the second payload, and retrieving with the first phrase (whose
derived key differs from the second's) fails with `None`. -/
theorem C8_overwrite_last_write_wins (v : VIREMVaultDriver) (fs : FS)
    (memory_id : String) (payloadA payloadB : Json) (pA pB : String)
    (hv : v.encryption_enabled = true) (hA : pA ≠ "") (hB : pB ≠ "")
    (hkey : derive_key_from_phrase pA ≠ derive_key_from_phrase pB) :
    (retrieve_memory v
        (store_memory v (store_memory v fs memory_id payloadA pA).2 memory_id payloadB pB).2
        memory_id pB).1 = some payloadB
    ∧ (retrieve_memory v
        (store_memory v (store_memory v fs memory_id payloadA pA).2 memory_id payloadB pB).2
        memory_id pA).1 = none := by
  have hdA := derive_key_of_ne pA hA
  have hdB := derive_key_of_ne pB hB
  have hk : String.mk (urlsafeB64 (sha256 (utf8Encode pA ++ KEY_DERIVATION_SALT)))
      ≠ String.mk (urlsafeB64 (sha256 (utf8Encode pB ++ KEY_DERIVATION_SALT))) := by
    intro e
    exact hkey (by rw [hdA, hdB, e])
  simp [store_memory, retrieve_memory, retrieve_memory_full, hdA, hdB, hv,
    FS.lookup_insert_self, json_dumps, json_loads, RetrieveOutcome.toReturn, hk]

/-- Witness for C8 at a concrete input. -/
theorem C8_overwrite_last_write_wins_witness :
    (vaultT.encryption_enabled = true ∧ "pa" ≠ "" ∧ "pb" ≠ ""
      ∧ derive_key_from_phrase "pa" ≠ derive_key_from_phrase "pb")
    ∧ ((retrieve_memory vaultT
          (store_memory vaultT (store_memory vaultT [] "m3" (Json.str "A") "pa").2
            "m3" (Json.str "B") "pb").2 "m3" "pb").1 = some (Json.str "B")
      ∧ (retrieve_memory vaultT
          (store_memory vaultT (store_memory vaultT [] "m3" (Json.str "A") "pa").2
            "m3" (Json.str "B") "pb").2 "m3" "pa").1 = none) :=
  ⟨⟨rfl, by decide, by decide, by decide⟩,
   C8_overwrite_last_write_wins vaultT [] "m3" (Json.str "A") (Json.str "B") "pa" "pb"
     rfl (by decide) (by decide) (by decide)⟩

/-- C7: key derivation returns, for every non-empty phrase, exactly the
URL-safe base64 encoding of the SHA-256 digest of the UTF-8 phrase bytes
concatenated with the fixed salt `KEY_DERIVATION_SALT`; it is deterministic
(equal phrases yield identical key material, the embedding being a pure
function of the phrase); and phrases whose salted digests differ — any
distinct pair barring a SHA-256 collision, the "overwhelming probability"
caveat — yield different keys, since base64 encoding is injective on byte
lists. -/
theorem C7_derive_key_spec (p q1 q2 : String) (hp : p ≠ "") :
    derive_key_from_phrase p
      = some (String.mk (urlsafeB64 (sha256 (utf8Encode p ++ KEY_DERIVATION_SALT))))
    ∧ (q1 = q2 → derive_key_from_phrase q1 = derive_key_from_phrase q2)
    ∧ (sha256 (utf8Encode q1 ++ KEY_DERIVATION_SALT)
          ≠ sha256 (utf8Encode q2 ++ KEY_DERIVATION_SALT)
        → derive_key_from_phrase q1 ≠ derive_key_from_phrase q2) :=
  ⟨derive_key_of_ne p hp, fun h => by rw [h], derive_key_ne_of_digest_ne q1 q2⟩

/-- Witness for C7 at a concrete input. -/
theorem C7_derive_key_spec_witness :
    ("remember the sunflower" ≠ ""
      ∧ sha256 (utf8Encode "remember the sunflower" ++ KEY_DERIVATION_SALT)
          ≠ sha256 (utf8Encode "forget the moon" ++ KEY_DERIVATION_SALT))
    ∧ (derive_key_from_phrase "remember the sunflower"
        = some (String.mk (urlsafeB64
            (sha256 (utf8Encode "remember the sunflower" ++ KEY_DERIVATION_SALT))))
      ∧ derive_key_from_phrase "remember the sunflower"
          ≠ derive_key_from_phrase "forget the moon") :=
  ⟨⟨by decide, by decide⟩,
   (C7_derive_key_spec "remember the sunflower" "remember the sunflower" "forget the moon"
      (by decide)).1,
   (C7_derive_key_spec "remember the sunflower" "remember the sunflower" "forget the moon"
      (by decide)).2.2 (by decide)⟩

/-- C3 counterexample: three different failure causes — no file at the
derived path, authenticated-decryption failure under a wrong phrase, and
valid decryption with non-JSON plaintext — take three distinct internal
paths, yet `retrieve_memory` hands the caller the identical value `None`
for all three, so the outcomes are not mutually distinguishable by the
caller; and the malformed-JSON case is reported through the same
`except ValueError` handler as an invalid phrase, not a separate
`CorruptRecord` outcome. -/
theorem C3_counterexample :
    (retrieve_memory_full vaultT [] "m" "p").1 = RetrieveOutcome.notFound
    ∧ (retrieve_memory_full vaultT
        [(get_memory_filepath vaultT "m",
          VFile.enc (String.mk (urlsafeB64 (sha256 (utf8Encode "q" ++ KEY_DERIVATION_SALT))))
            (json_dumps Json.null))] "m" "p").1 = RetrieveOutcome.invalidTokenCaught
    ∧ (retrieve_memory_full vaultT
        [(get_memory_filepath vaultT "m",
          VFile.enc (String.mk (urlsafeB64 (sha256 (utf8Encode "p" ++ KEY_DERIVATION_SALT))))
            (Plaintext.invalid "oops"))] "m" "p").1 = RetrieveOutcome.valueErrorCaught
    ∧ (retrieve_memory vaultT [] "m" "p").1 = none
    ∧ (retrieve_memory vaultT
        [(get_memory_filepath vaultT "m",
          VFile.enc (String.mk (urlsafeB64 (sha256 (utf8Encode "q" ++ KEY_DERIVATION_SALT))))
            (json_dumps Json.null))] "m" "p").1 = none
    ∧ (retrieve_memory vaultT
        [(get_memory_filepath vaultT "m",
          VFile.enc (String.mk (urlsafeB64 (sha256 (utf8Encode "p" ++ KEY_DERIVATION_SALT))))
            (Plaintext.invalid "oops"))] "m" "p").1 = none := by
  have hk : String.mk (urlsafeB64 (sha256 (utf8Encode "p" ++ KEY_DERIVATION_SALT)))
      ≠ String.mk (urlsafeB64 (sha256 (utf8Encode "q" ++ KEY_DERIVATION_SALT))) := by decide
  refine ⟨?_, ?_, ?_, ?_, ?_, ?_⟩ <;>
    simp [retrieve_memory, retrieve_memory_full, FS.lookup, derive_key_from_phrase,
      json_dumps, json_loads, RetrieveOutcome.toReturn, hk, vaultT]

/-- C3 amended: `retrieve_memory` internally distinguishes the failure
paths (`notFound`, `invalidToken`, `ValueError` — the last conflating
invalid-phrase with malformed JSON), but every non-success internal
outcome is reported to the caller as the same value `None`. -/
theorem C3_amended_failures_return_none (v : VIREMVaultDriver) (fs : FS)
    (memory_id w : String)
    (h : ∀ j : Json,
      (retrieve_memory_full v fs memory_id w).1 ≠ RetrieveOutcome.success j) :
    (retrieve_memory v fs memory_id w).1 = none := by
  unfold retrieve_memory
  cases hro : (retrieve_memory_full v fs memory_id w).1 with
  | success j => exact absurd hro (h j)
  | notFound => simp [hro, RetrieveOutcome.toReturn]
  | invalidTokenCaught => simp [hro, RetrieveOutcome.toReturn]
  | valueErrorCaught => simp [hro, RetrieveOutcome.toReturn]
  | otherErrorCaught => simp [hro, RetrieveOutcome.toReturn]

/-- Witness for the amended C3 at a concrete input. -/
theorem C3_amended_failures_return_none_witness :
    (∀ j : Json, (retrieve_memory_full vaultT [] "m" "p").1 ≠ RetrieveOutcome.success j)
    ∧ (retrieve_memory vaultT [] "m" "p").1 = none := by
  have hyp : ∀ j : Json,
      (retrieve_memory_full vaultT [] "m" "p").1 ≠ RetrieveOutcome.success j := by
    intro j h
    simp [retrieve_memory_full, FS.lookup] at h
  exact ⟨hyp, C3_amended_failures_return_none vaultT [] "m" "p" hyp⟩

/-- C6 counterexample: with encryption disabled and a plaintext record on
disk, retrieving with the empty phrase does not succeed — the code derives
the key before checking `encryption_enabled`, so the `ValueError` from
`_derive_key_from_phrase` makes the call return `None`.  Key derivation is
not skipped, and retrieval does not succeed "regardless of the phrase
supplied". -/
theorem C6_counterexample :
    FS.lookup [(get_memory_filepath vaultF "m6", VFile.raw (json_dumps (Json.str "d")))]
        (get_memory_filepath vaultF "m6") = some (VFile.raw (json_dumps (Json.str "d")))
    ∧ retrieve_memory vaultF
        [(get_memory_filepath vaultF "m6", VFile.raw (json_dumps (Json.str "d")))] "m6" ""
      = (none, [(get_memory_filepath vaultF "m6", VFile.raw (json_dumps (Json.str "d")))])
    ∧ (retrieve_memory_full vaultF
        [(get_memory_filepath vaultF "m6", VFile.raw (json_dumps (Json.str "d")))]
        "m6" "").1 = RetrieveOutcome.valueErrorCaught := by
  refine ⟨?_, ?_, ?_⟩ <;>
    simp [retrieve_memory, retrieve_memory_full, FS.lookup, derive_key_from_phrase,
      RetrieveOutcome.toReturn]

/-- C6 amended: when `encryption_enabled` is false, `retrieve_memory`
still derives a key from the wake phrase first (so an empty phrase fails
with `None`), but skips decryption: with any non-empty phrase — no matter
which — an existing plaintext record is parsed and returned directly. -/
theorem C6_plaintext_mode_ignores_phrase (v : VIREMVaultDriver) (fs : FS)
    (memory_id : String) (payload : Json) (w : String)
    (hv : v.encryption_enabled = false)
    (hfile : fs.lookup (get_memory_filepath v memory_id)
      = some (VFile.raw (json_dumps payload)))
    (hw : w ≠ "") :
    retrieve_memory v fs memory_id w = (some payload, fs)
    ∧ retrieve_memory v fs memory_id "" = (none, fs) := by
  constructor <;>
    simp [retrieve_memory, retrieve_memory_full, hfile, hv, hw,
      derive_key_from_phrase, json_dumps, json_loads, RetrieveOutcome.toReturn]

/-- Witness for the amended C6 at a concrete input. -/
theorem C6_plaintext_mode_ignores_phrase_witness :
    (vaultF.encryption_enabled = false
      ∧ FS.lookup [(get_memory_filepath vaultF "m6w", VFile.raw (json_dumps Json.null))]
          (get_memory_filepath vaultF "m6w") = some (VFile.raw (json_dumps Json.null))
      ∧ "any words at all" ≠ "")
    ∧ (retrieve_memory vaultF
        [(get_memory_filepath vaultF "m6w", VFile.raw (json_dumps Json.null))]
        "m6w" "any words at all"
      = (some Json.null,
         [(get_memory_filepath vaultF "m6w", VFile.raw (json_dumps Json.null))])
      ∧ retrieve_memory vaultF
          [(get_memory_filepath vaultF "m6w", VFile.raw (json_dumps Json.null))] "m6w" ""
        = (none,
           [(get_memory_filepath vaultF "m6w", VFile.raw (json_dumps Json.null))])) :=
  ⟨⟨rfl, by simp [FS.lookup], by decide⟩,
   C6_plaintext_mode_ignores_phrase vaultF
     [(get_memory_filepath vaultF "m6w", VFile.raw (json_dumps Json.null))]
     "m6w" Json.null "any words at all" rfl (by simp [FS.lookup]) (by decide)⟩

/-- C10 counterexample: a record whose ciphertext decrypts under the
supplied phrase but holds non-JSON plaintext makes `retrieve_memory`
return `None` with the filesystem *unchanged*: `json.JSONDecodeError`
subclasses `ValueError`, so the `except ValueError` handler (no cleanup)
catches it and the file-deleting `except Exception` handler is never
reached.  The file is still present afterwards and a subsequent retrieve
reports the `ValueError` outcome again, not `NotFound`. -/
theorem C10_counterexample :
    retrieve_memory vaultT
        [(get_memory_filepath vaultT "m10",
          VFile.enc (String.mk (urlsafeB64 (sha256 (utf8Encode "p" ++ KEY_DERIVATION_SALT))))
            (Plaintext.invalid "oops"))] "m10" "p"
      = (none,
         [(get_memory_filepath vaultT "m10",
           VFile.enc (String.mk (urlsafeB64 (sha256 (utf8Encode "p" ++ KEY_DERIVATION_SALT))))
             (Plaintext.invalid "oops"))])
    ∧ FS.lookup
        [(get_memory_filepath vaultT "m10",
          VFile.enc (String.mk (urlsafeB64 (sha256 (utf8Encode "p" ++ KEY_DERIVATION_SALT))))
            (Plaintext.invalid "oops"))]
        (get_memory_filepath vaultT "m10")
      = some (VFile.enc
          (String.mk (urlsafeB64 (sha256 (utf8Encode "p" ++ KEY_DERIVATION_SALT))))
          (Plaintext.invalid "oops"))
    ∧ (retrieve_memory_full vaultT
        [(get_memory_filepath vaultT "m10",
          VFile.enc (String.mk (urlsafeB64 (sha256 (utf8Encode "p" ++ KEY_DERIVATION_SALT))))
            (Plaintext.invalid "oops"))] "m10" "p").1 = RetrieveOutcome.valueErrorCaught
    ∧ RetrieveOutcome.valueErrorCaught ≠ RetrieveOutcome.notFound := by
  refine ⟨?_, ?_, ?_, ?_⟩ <;>
    simp [retrieve_memory, retrieve_memory_full, FS.lookup, derive_key_from_phrase,
      json_loads, RetrieveOutcome.toReturn, vaultT]

/-- C10 amended: when the stored ciphertext decrypts under the supplied
phrase but its plaintext is not valid JSON, `retrieve_memory` returns
`None` through the `ValueError` handler and leaves the filesystem — in
particular the record's file — unchanged; no deletion takes place and the
record stays `Stored`. -/
theorem C10_json_error_keeps_file (v : VIREMVaultDriver) (fs : FS)
    (memory_id p raw key : String)
    (hv : v.encryption_enabled = true)
    (hkey : derive_key_from_phrase p = some key)
    (hfile : fs.lookup (get_memory_filepath v memory_id)
      = some (VFile.enc key (Plaintext.invalid raw))) :
    retrieve_memory v fs memory_id p = (none, fs)
    ∧ (retrieve_memory_full v fs memory_id p).1 = RetrieveOutcome.valueErrorCaught := by
  constructor <;>
    simp [retrieve_memory, retrieve_memory_full, hfile, hkey, hv, json_loads,
      RetrieveOutcome.toReturn]

/-- Witness for the amended C10 at a concrete input. -/
theorem C10_json_error_keeps_file_witness :
    (vaultT.encryption_enabled = true
      ∧ derive_key_from_phrase "p"
        = some (String.mk (urlsafeB64 (sha256 (utf8Encode "p" ++ KEY_DERIVATION_SALT))))
      ∧ FS.lookup
          [(get_memory_filepath vaultT "w10",
            VFile.enc (String.mk (urlsafeB64 (sha256 (utf8Encode "p" ++ KEY_DERIVATION_SALT))))
              (Plaintext.invalid "xx"))]
          (get_memory_filepath vaultT "w10")
        = some (VFile.enc
            (String.mk (urlsafeB64 (sha256 (utf8Encode "p" ++ KEY_DERIVATION_SALT))))
            (Plaintext.invalid "xx")))
    ∧ (retrieve_memory vaultT
        [(get_memory_filepath vaultT "w10",
          VFile.enc (String.mk (urlsafeB64 (sha256 (utf8Encode "p" ++ KEY_DERIVATION_SALT))))
            (Plaintext.invalid "xx"))] "w10" "p"
      = (none,
         [(get_memory_filepath vaultT "w10",
           VFile.enc (String.mk (urlsafeB64 (sha256 (utf8Encode "p" ++ KEY_DERIVATION_SALT))))
             (Plaintext.invalid "xx"))])
      ∧ (retrieve_memory_full vaultT
          [(get_memory_filepath vaultT "w10",
            VFile.enc (String.mk (urlsafeB64 (sha256 (utf8Encode "p" ++ KEY_DERIVATION_SALT))))
              (Plaintext.invalid "xx"))] "w10" "p").1
        = RetrieveOutcome.valueErrorCaught) :=
  ⟨⟨rfl, by simp [derive_key_from_phrase], by simp [FS.lookup]⟩,
   C10_json_error_keeps_file vaultT
     [(get_memory_filepath vaultT "w10",
       VFile.enc (String.mk (urlsafeB64 (sha256 (utf8Encode "p" ++ KEY_DERIVATION_SALT))))
         (Plaintext.invalid "xx"))]
     "w10" "p" "xx"
     (String.mk (urlsafeB64 (sha256 (utf8Encode "p" ++ KEY_DERIVATION_SALT))))
     rfl (by simp [derive_key_from_phrase]) (by simp [FS.lookup])⟩

/-- C5 counterexample: `store_memory` writes with `open(filepath, 'wb')`
followed by `f.write(...)` — a truncating open at the *final* path, with no
temporary file and no rename anywhere in its event trace.  Overwriting a
stored record therefore exposes an observable intermediate state (right
after the truncating open) in which the record's file exists but is empty:
neither absent, nor the old contents, nor the new contents. -/
theorem C5_counterexample :
    (observableStates (store_memory vaultT [] "m5" (Json.str "old") "p1").2
        (store_memory_events vaultT "m5" (Json.str "new") "p2"))[1]?
      = some (applyEvent (store_memory vaultT [] "m5" (Json.str "old") "p1").2
          (FsEvent.openTrunc (get_memory_filepath vaultT "m5")))
    ∧ (store_memory_events vaultT "m5" (Json.str "new") "p2").all
        (fun e => !e.isRename) = true
    ∧ FS.lookup (applyEvent (store_memory vaultT [] "m5" (Json.str "old") "p1").2
          (FsEvent.openTrunc (get_memory_filepath vaultT "m5")))
        (get_memory_filepath vaultT "m5") = some emptyFile
    ∧ FS.lookup (store_memory vaultT [] "m5" (Json.str "old") "p1").2
        (get_memory_filepath vaultT "m5")
      = some (VFile.enc
          (String.mk (urlsafeB64 (sha256 (utf8Encode "p1" ++ KEY_DERIVATION_SALT))))
          (json_dumps (Json.str "old")))
    ∧ emptyFile ≠ VFile.enc
        (String.mk (urlsafeB64 (sha256 (utf8Encode "p1" ++ KEY_DERIVATION_SALT))))
        (json_dumps (Json.str "old"))
    ∧ emptyFile ≠ VFile.enc
        (String.mk (urlsafeB64 (sha256 (utf8Encode "p2" ++ KEY_DERIVATION_SALT))))
        (json_dumps (Json.str "new")) := by
  refine ⟨?_, ?_, ?_, ?_, ?_, ?_⟩ <;>
    simp [store_memory, store_memory_events, observableStates, applyEvent, emptyFile,
      FS.lookup, FS.insert, derive_key_from_phrase, json_dumps, FsEvent.isRename, vaultT]

/-- C5 amended: for every valid (non-empty) phrase, the event trace of
`store_memory` is exactly a truncating open of the record's final path, a
single write of the complete new contents, and a close — in-place, with no
temporary file and no rename; and the state right after the truncating
open shows the record as an existing empty file, an externally observable
intermediate state. -/
theorem C5_store_writes_in_place (v : VIREMVaultDriver) (fs : FS)
    (memory_id : String) (data : Json) (phrase : String) (h : phrase ≠ "") :
    store_memory_events v memory_id data phrase
      = [FsEvent.openTrunc (get_memory_filepath v memory_id),
         FsEvent.writeAll (get_memory_filepath v memory_id)
           (if v.encryption_enabled then
              VFile.enc
                (String.mk (urlsafeB64 (sha256 (utf8Encode phrase ++ KEY_DERIVATION_SALT))))
                (json_dumps data)
            else VFile.raw (json_dumps data)),
         FsEvent.closeFile (get_memory_filepath v memory_id)]
    ∧ (store_memory_events v memory_id data phrase).all (fun e => !e.isRename) = true
    ∧ FS.lookup (applyEvent fs (FsEvent.openTrunc (get_memory_filepath v memory_id)))
        (get_memory_filepath v memory_id) = some emptyFile := by
  have hd := derive_key_of_ne phrase h
  refine ⟨?_, ?_, ?_⟩
  · cases henc : v.encryption_enabled <;> simp [store_memory_events, hd, henc]
  · cases henc : v.encryption_enabled <;>
      simp [store_memory_events, hd, henc, FsEvent.isRename]
  · simp [applyEvent, FS.lookup_insert_self]

/-- Witness for the amended C5 at a concrete input. -/
theorem C5_store_writes_in_place_witness :
    ("p5" ≠ "")
    ∧ (store_memory_events vaultT "m5w" Json.null "p5"
        = [FsEvent.openTrunc (get_memory_filepath vaultT "m5w"),
           FsEvent.writeAll (get_memory_filepath vaultT "m5w")
             (if vaultT.encryption_enabled then
                VFile.enc
                  (String.mk (urlsafeB64 (sha256 (utf8Encode "p5" ++ KEY_DERIVATION_SALT))))
                  (json_dumps Json.null)
              else VFile.raw (json_dumps Json.null)),
           FsEvent.closeFile (get_memory_filepath vaultT "m5w")]
      ∧ (store_memory_events vaultT "m5w" Json.null "p5").all (fun e => !e.isRename) = true
      ∧ FS.lookup (applyEvent [] (FsEvent.openTrunc (get_memory_filepath vaultT "m5w")))
          (get_memory_filepath vaultT "m5w") = some emptyFile) :=
  ⟨by decide, C5_store_writes_in_place vaultT [] "m5w" Json.null "p5" (by decide)⟩
